import Mathlib

/-!
Verification of the Weather Overlay & Data Resilience Layer of the
caelus-reimagined repository.

The definitions below are shallow embeddings of the TypeScript source:

* the TTL cache shape shared by the module-level weatherCache in
  WeatherMap.tsx and the summary cache in WeatherAIService (aiService.ts);
* fetchWeather (WeatherMap.tsx), modelled over explicit HTTP responses;
* the summary-provider chain of WeatherAIService.generateWeatherSummary
  together with the deterministic FallbackProvider.generateSummary;
* the overlay registry logic of WeatherMap.tsx: getTileUrl, addOverlay,
  removeOverlay, the overlay-sync effect and the basemap/date effect;
* the Index.tsx coordinator handlers that dispatch commands to whichever
  rendering surface is mounted.

Machine integers do not occur: all JS numbers involved are either small
naturals (timestamps in ms, counters) modelled as Nat, or decimal
quantities (coordinates, temperatures) modelled as Rat.
-/

/-- A cache entry list: key, creation timestamp (ms), payload.  Both the
weather cache (a JS Map in WeatherMap.tsx) and the summary cache (a JS Map
in WeatherAIService) have this shape. -/
abbrev CacheMap (α : Type) : Type := List (String × Nat × α)

/-- Weather payload cache TTL, from WeatherMap.tsx:
CACHE_TTL_MS = 1000 * 60 * 5. -/
def CACHE_TTL_MS : Nat := 1000 * 60 * 5

/-- Summary cache TTL, from WeatherAIService: CACHE_TTL = 10 * 60 * 1000. -/
def SUMMARY_CACHE_TTL : Nat := 10 * 60 * 1000

/-- Interval of the WeatherAIService cleanCache timer: 15 * 60 * 1000 ms. -/
def CLEAN_CACHE_INTERVAL_MS : Nat := 15 * 60 * 1000

/-- Cache read, as both call sites write it: look the key up and treat the
entry as a hit iff now - timestamp < ttl.  Neither call site deletes a
stale entry on read; the read is pure. -/
def cacheGet {α : Type} (ttl : Nat) (c : CacheMap α) (k : String) (now : Nat) :
    Option α :=
  match c.lookup k with
  | some e => if now - e.1 < ttl then some e.2 else none
  | none => none

/-- Cache write (JS Map.set): replaces any previous entry for the key. -/
def cachePut {α : Type} (k : String) (ts : Nat) (v : α) (c : CacheMap α) :
    CacheMap α :=
  (k, ts, v) :: c.filter (fun e => e.1 != k)

theorem lookup_cachePut_self {α : Type} (k : String) (ts : Nat) (v : α)
    (c : CacheMap α) : (cachePut k ts v c).lookup k = some (ts, v) := by
  simp [cachePut, List.lookup]

/-- C1: for every cache namespace (weather payload cache with TTL 5 minutes,
summary-text cache with TTL 10 minutes) and every key written at time t with
TTL τ, the cache read returns the cached value for every query time in
[t, t+τ) and a miss for every query time ≥ t+τ. -/
theorem cache_ttl_window {α : Type} (c : CacheMap α) (k : String) (v : α)
    (t q : Nat) :
    CACHE_TTL_MS = 5 * 60 * 1000 ∧ SUMMARY_CACHE_TTL = 10 * 60 * 1000 ∧
    ∀ ttl : Nat,
      (t ≤ q → q < t + ttl → cacheGet ttl (cachePut k t v c) k q = some v) ∧
      (t + ttl ≤ q → cacheGet ttl (cachePut k t v c) k q = none) := by
  refine ⟨rfl, rfl, fun ttl => ⟨fun _ hlt => ?_, fun hge => ?_⟩⟩
  · rw [cacheGet, lookup_cachePut_self]
    simp only
    rw [if_pos (by omega)]
  · rw [cacheGet, lookup_cachePut_self]
    simp only
    rw [if_neg (by omega)]

/-- Concrete instance of cache_ttl_window: a value written at t = 5 is
returned at q = 7 and missed at q = 300005 under the weather TTL. -/
theorem cache_ttl_window_witness :
    cacheGet CACHE_TTL_MS (cachePut "51.5007,-0.1246" 5 (0 : Nat) []) "51.5007,-0.1246" 7 = some 0 ∧
    cacheGet CACHE_TTL_MS (cachePut "51.5007,-0.1246" 5 (0 : Nat) []) "51.5007,-0.1246" 300005 = none := by
  have h1 := cache_ttl_window ([] : CacheMap Nat) "51.5007,-0.1246" 0 5 7
  have h2 := cache_ttl_window ([] : CacheMap Nat) "51.5007,-0.1246" 0 5 300005
  exact ⟨(h1.2.2 CACHE_TTL_MS).1 (by decide) (by decide),
         (h2.2.2 CACHE_TTL_MS).2 (by decide)⟩

/-- Rendering of a JS number in template strings, as an injective rendering
of the exact rational value (integer values render without a denominator). -/
def ratStr (q : Rat) : String :=
  if q.den == 1 then toString q.num else toString q.num ++ "/" ++ toString q.den

/-- Left-pads the fractional part of a 4-decimal rendering with zeros. -/
def pad4 (n : Nat) : String :=
  if n < 10 then "000" ++ toString n
  else if n < 100 then "00" ++ toString n
  else if n < 1000 then "0" ++ toString n
  else toString n

/-- Digits of toFixed(4) for a non-negative rational: the integer nearest
to y * 10^4 (ties away from zero, as ECMA toFixed computes on the
sign-stripped value), rendered with exactly four decimal places. -/
def fixedDigits (y : Rat) : String :=
  let n : Nat := (⌊y * 10000 + 1 / 2⌋).toNat
  toString (n / 10000) ++ "." ++ pad4 (n % 10000)

/-- JS Number.prototype.toFixed(4), used by fetchWeather to quantize each
coordinate component: lat.toFixed(4). -/
def toFixed4 (x : Rat) : String :=
  if x < 0 then "-" ++ fixedDigits (-x) else fixedDigits x

/-- The weather cache key of fetchWeather:
lat.toFixed(4) ++ "," ++ lon.toFixed(4). -/
def coordKey (lat lon : Rat) : String :=
  toFixed4 lat ++ "," ++ toFixed4 lon

theorem fixedDigits_eval (y : Rat) (n : Nat) (h : ⌊y * 10000 + 1 / 2⌋ = (n : Int)) :
    fixedDigits y = toString (n / 10000) ++ "." ++ pad4 (n % 10000) := by
  rw [fixedDigits, h]
  simp

/-- One HTTP response of the OpenWeather provider, as fetchWeather consumes
it: ok flag, status code, the optional message field of the parsed error
body, and the parsed payload body. -/
structure HttpResp where
  ok : Bool
  status : Nat
  message : Option String
  body : String
deriving DecidableEq

/-- The assembled weather payload { current, forecast, airQuality }. -/
structure WeatherPayload where
  current : String
  forecast : String
  airQuality : String
deriving DecidableEq

/-- Observable outcome of one fetchWeather call: the returned payload (null
on failure), the weather cache afterwards, the final weatherError value, how
many network requests were issued, and the sequence of setWeatherLoading
values. -/
structure FetchOutcome where
  payload : Option WeatherPayload
  cache : CacheMap WeatherPayload
  error : Option String
  networkCalls : Nat
  loadingEvents : List Bool
deriving DecidableEq

/-- Error message selection of fetchWeather: the message field of the parsed
error body if present, else a generic status-coded message. -/
def owmErrMsg (kind : String) (r : HttpResp) : String :=
  match r.message with
  | some m => m
  | none => "OpenWeather " ++ kind ++ " error " ++ toString r.status

/-- fetchWeather of WeatherMap.tsx over explicit responses: compute the
quantized key; on a valid cache entry return it with no network call and no
loading transition; otherwise issue the three requests, fail on the first
non-ok response (checked current, forecast, AQI in that order) without
touching the cache, and on full success write the assembled payload through
the cache under the key with the current timestamp. -/
def fetchWeather (cache : CacheMap WeatherPayload) (lat lon : Rat) (now : Nat)
    (cur fore air : HttpResp) : FetchOutcome :=
  match cacheGet CACHE_TTL_MS cache (coordKey lat lon) now with
  | some p => ⟨some p, cache, none, 0, []⟩
  | none =>
    if !cur.ok then ⟨none, cache, some (owmErrMsg "current" cur), 3, [true, false]⟩
    else if !fore.ok then ⟨none, cache, some (owmErrMsg "forecast" fore), 3, [true, false]⟩
    else if !air.ok then ⟨none, cache, some (owmErrMsg "AQI" air), 3, [true, false]⟩
    else
      ⟨some ⟨cur.body, fore.body, air.body⟩,
       cachePut (coordKey lat lon) now ⟨cur.body, fore.body, air.body⟩ cache,
       none, 3, [true, false]⟩

theorem cacheGet_none_mono {α : Type} (ttl : Nat) (c : CacheMap α) (k : String)
    (t q : Nat) (h : cacheGet ttl c k t = none) (hq : t ≤ q) :
    cacheGet ttl c k q = none := by
  unfold cacheGet at h ⊢
  cases hl : c.lookup k with
  | none => simp
  | some e =>
    simp only [hl] at h ⊢
    by_cases hc : t - e.1 < ttl
    · simp [if_pos hc] at h
    · have hq2 : ¬ q - e.1 < ttl := by omega
      simp [if_neg hq2]

/-- C2: if any one of the three parallel requests fails, the whole fetch
fails with an error, and no entry is written to the weather cache for that
coordinate key, so a subsequent read of that key (at the same or any later
time) is still a miss — partial payloads are never cached or returned. -/
theorem fetch_all_or_nothing (cache : CacheMap WeatherPayload) (lat lon : Rat)
    (now : Nat) (cur fore air : HttpResp)
    (hmiss : cacheGet CACHE_TTL_MS cache (coordKey lat lon) now = none)
    (hfail : cur.ok = false ∨ fore.ok = false ∨ air.ok = false) :
    (fetchWeather cache lat lon now cur fore air).payload = none ∧
    (fetchWeather cache lat lon now cur fore air).error.isSome = true ∧
    (fetchWeather cache lat lon now cur fore air).cache = cache ∧
    ∀ q : Nat, now ≤ q →
      cacheGet CACHE_TTL_MS (fetchWeather cache lat lon now cur fore air).cache
        (coordKey lat lon) q = none := by
  have hcase : fetchWeather cache lat lon now cur fore air =
      if !cur.ok then ⟨none, cache, some (owmErrMsg "current" cur), 3, [true, false]⟩
      else if !fore.ok then ⟨none, cache, some (owmErrMsg "forecast" fore), 3, [true, false]⟩
      else if !air.ok then ⟨none, cache, some (owmErrMsg "AQI" air), 3, [true, false]⟩
      else ⟨some ⟨cur.body, fore.body, air.body⟩,
        cachePut (coordKey lat lon) now ⟨cur.body, fore.body, air.body⟩ cache,
        none, 3, [true, false]⟩ := by
    unfold fetchWeather
    rw [hmiss]
  rcases hfail with h | h | h
  · rw [hcase, if_pos (by simp [h])]
    exact ⟨rfl, rfl, rfl, fun q hq => cacheGet_none_mono _ _ _ _ _ hmiss hq⟩
  · rcases hc : cur.ok with _ | _
    · rw [hcase, if_pos (by simp [hc])]
      exact ⟨rfl, rfl, rfl, fun q hq => cacheGet_none_mono _ _ _ _ _ hmiss hq⟩
    · rw [hcase, if_neg (by simp [hc]), if_pos (by simp [h])]
      exact ⟨rfl, rfl, rfl, fun q hq => cacheGet_none_mono _ _ _ _ _ hmiss hq⟩
  · rcases hc : cur.ok with _ | _
    · rw [hcase, if_pos (by simp [hc])]
      exact ⟨rfl, rfl, rfl, fun q hq => cacheGet_none_mono _ _ _ _ _ hmiss hq⟩
    · rcases hf : fore.ok with _ | _
      · rw [hcase, if_neg (by simp [hc]), if_pos (by simp [hf])]
        exact ⟨rfl, rfl, rfl, fun q hq => cacheGet_none_mono _ _ _ _ _ hmiss hq⟩
      · rw [hcase, if_neg (by simp [hc]), if_neg (by simp [hf]), if_pos (by simp [h])]
        exact ⟨rfl, rfl, rfl, fun q hq => cacheGet_none_mono _ _ _ _ _ hmiss hq⟩

/-- Concrete instance of fetch_all_or_nothing: with a failing forecast
request at an empty cache, the fetch returns no payload, reports an error,
leaves the cache empty, and a later read still misses. -/
theorem fetch_all_or_nothing_witness :
    (fetchWeather [] 51.5007 (-0.1246) 0 ⟨true, 200, none, "c"⟩
      ⟨false, 500, none, ""⟩ ⟨true, 200, none, "a"⟩).payload = none ∧
    (fetchWeather [] 51.5007 (-0.1246) 0 ⟨true, 200, none, "c"⟩
      ⟨false, 500, none, ""⟩ ⟨true, 200, none, "a"⟩).error.isSome = true ∧
    (fetchWeather [] 51.5007 (-0.1246) 0 ⟨true, 200, none, "c"⟩
      ⟨false, 500, none, ""⟩ ⟨true, 200, none, "a"⟩).cache = [] ∧
    cacheGet CACHE_TTL_MS
      (fetchWeather [] 51.5007 (-0.1246) 0 ⟨true, 200, none, "c"⟩
        ⟨false, 500, none, ""⟩ ⟨true, 200, none, "a"⟩).cache
      (coordKey 51.5007 (-0.1246)) 99 = none := by
  have h := fetch_all_or_nothing [] 51.5007 (-0.1246) 0 ⟨true, 200, none, "c"⟩
    ⟨false, 500, none, ""⟩ ⟨true, 200, none, "a"⟩ rfl (Or.inr (Or.inl rfl))
  exact ⟨h.1, h.2.1, h.2.2.1, h.2.2.2 99 (by omega)⟩

theorem toFixed4_lat_a : toFixed4 (51.50074 : Rat) = "51.5007" := by
  rw [toFixed4, if_neg (by norm_num)]
  rw [fixedDigits_eval _ 515007 (by norm_num)]
  rfl

theorem toFixed4_lat_b : toFixed4 (51.5007 : Rat) = "51.5007" := by
  rw [toFixed4, if_neg (by norm_num)]
  rw [fixedDigits_eval _ 515007 (by norm_num)]
  rfl

theorem toFixed4_lon_a : toFixed4 (-0.12458 : Rat) = "-0.1246" := by
  rw [toFixed4, if_pos (by norm_num)]
  rw [show -(-0.12458 : Rat) = 0.12458 from by norm_num]
  rw [fixedDigits_eval _ 1246 (by norm_num)]
  rfl

theorem toFixed4_lon_b : toFixed4 (-0.1246 : Rat) = "-0.1246" := by
  rw [toFixed4, if_pos (by norm_num)]
  rw [show -(-0.1246 : Rat) = 0.1246 from by norm_num]
  rw [fixedDigits_eval _ 1246 (by norm_num)]
  rfl

theorem coordKey_eval_a : coordKey 51.50074 (-0.12458) = "51.5007,-0.1246" := by
  rw [coordKey, toFixed4_lat_a, toFixed4_lon_a]
  rfl

theorem coordKey_eval_b : coordKey 51.5007 (-0.1246) = "51.5007,-0.1246" := by
  rw [coordKey, toFixed4_lat_b, toFixed4_lon_b]
  rfl

/-- C7: coordinates are quantized to 4 decimal places to form the weather
cache key, so the two raw coordinate pairs (51.50074, -0.12458) and
(51.5007, -0.1246) map to the same cache entry, and a fetch whose key hits a
valid cache entry returns that payload immediately, with no network call and
no loading-state transition. -/
theorem coord_quantization_cache_hit (cache : CacheMap WeatherPayload)
    (lat lon : Rat) (now : Nat) (cur fore air : HttpResp) (p : WeatherPayload)
    (hhit : cacheGet CACHE_TTL_MS cache (coordKey lat lon) now = some p) :
    coordKey 51.50074 (-0.12458) = coordKey 51.5007 (-0.1246) ∧
    fetchWeather cache lat lon now cur fore air = ⟨some p, cache, none, 0, []⟩ := by
  refine ⟨by rw [coordKey_eval_a, coordKey_eval_b], ?_⟩
  unfold fetchWeather
  rw [hhit]

/-- Concrete instance of coord_quantization_cache_hit: an entry stored under
the key of (51.5007, -0.1246) at time 0 is returned by a fetch for
(51.50074, -0.12458) at time 10 with zero network calls and no loading
transitions. -/
theorem coord_quantization_cache_hit_witness :
    coordKey 51.50074 (-0.12458) = coordKey 51.5007 (-0.1246) ∧
    fetchWeather [("51.5007,-0.1246", 0, ⟨"c", "f", "a"⟩)] 51.50074 (-0.12458) 10
      ⟨true, 200, none, "x"⟩ ⟨true, 200, none, "y"⟩ ⟨true, 200, none, "z"⟩ =
      ⟨some ⟨"c", "f", "a"⟩, [("51.5007,-0.1246", 0, ⟨"c", "f", "a"⟩)], none, 0, []⟩ :=
  coord_quantization_cache_hit [("51.5007,-0.1246", 0, ⟨"c", "f", "a"⟩)]
    51.50074 (-0.12458) 10 ⟨true, 200, none, "x"⟩ ⟨true, 200, none, "y"⟩
    ⟨true, 200, none, "z"⟩ ⟨"c", "f", "a"⟩ (by rw [coordKey_eval_a]; rfl)

/-- Current-conditions slice of WeatherSummaryInput (aiService.ts). -/
structure CurrentWeather where
  temp : Rat
  conditions : String
  windSpeed : Rat
  humidity : Rat
  pressure : Rat
  location : String
deriving DecidableEq

/-- One forecast item of WeatherSummaryInput. -/
structure ForecastItem where
  date : String
  temp : Rat
  conditions : String
deriving DecidableEq

/-- Air-quality slice of WeatherSummaryInput. -/
structure AirQualityInfo where
  aqi : Rat
  pm25 : Rat
  pm10 : Rat
deriving DecidableEq

/-- WeatherSummaryInput of aiService.ts: current conditions plus optional
forecast list and optional air quality. -/
structure WeatherSummaryInput where
  current : CurrentWeather
  forecast : Option (List ForecastItem)
  airQuality : Option AirQualityInfo
deriving DecidableEq

/-- FallbackProvider.generateSummary of aiService.ts: the deterministic
rule-based sentence builder over the input fields, translated clause by
clause (temperature band, humidity comfort, wind, pressure or first
forecast item). -/
def fallbackGenerateSummary (w : WeatherSummaryInput) : String :=
  "The current weather in " ++
  (w.current.location ++ " shows " ++
    ratStr w.current.temp ++ "°C with " ++ w.current.conditions ++ ". " ++
  (if w.current.temp > 25 then "This warm temperature "
   else if w.current.temp < 10 then "These cool conditions "
   else "This moderate temperature ") ++
  (if w.current.humidity > 70 then
    "combined with high humidity (" ++ ratStr w.current.humidity ++
      "%) will make it feel quite muggy and potentially uncomfortable. "
   else if w.current.humidity < 40 then
    "with low humidity (" ++ ratStr w.current.humidity ++
      "%) creates dry, crisp conditions that may feel more comfortable than the actual temperature suggests. "
   else
    "with moderate humidity (" ++ ratStr w.current.humidity ++
      "%) should feel relatively comfortable. ") ++
  (if w.current.windSpeed > 8 then
    "Strong winds at " ++ ratStr w.current.windSpeed ++
      " m/s will create breezy conditions that help with cooling but may affect outdoor activities. "
   else if w.current.windSpeed > 3 then
    "Light winds of " ++ ratStr w.current.windSpeed ++
      " m/s provide a gentle breeze that enhances comfort. "
   else
    "Calm wind conditions with minimal air movement may make temperatures feel more intense. ") ++
  (if w.current.pressure > 1020 then
    "High atmospheric pressure suggests stable, clear weather conditions."
   else if w.current.pressure < 1000 then
    "Low pressure indicates potential for changing weather patterns or storms."
   else
    match w.forecast with
    | some (f0 :: _) => "Looking ahead, expect " ++ f0.conditions ++ " in the coming hours."
    | _ => ""))

/-- A summary provider as the resolver consumes it: generateSummary either
returns text or raises. -/
def AIProviderFun : Type := WeatherSummaryInput → Except String String

/-- The FallbackProvider as a provider function: it never raises. -/
def fallbackProvider : AIProviderFun := fun w => Except.ok (fallbackGenerateSummary w)

/-- Provider list pushed by the WeatherAIService constructor, in order of
preference: OpenAI, Hugging Face, then the local fallback.  The two
network-backed providers are parameters, since their behavior depends on
configuration and the network. -/
def serviceProviders (pA pB : AIProviderFun) : List AIProviderFun :=
  [pA, pB, fallbackProvider]

/-- The summary cache key of generateWeatherSummary:
location ++ "-" ++ temp ++ "-" ++ conditions, with the raw temperature as
rendered by the template string. -/
def summaryCacheKey (w : WeatherSummaryInput) : String :=
  w.current.location ++ "-" ++ ratStr w.current.temp ++ "-" ++ w.current.conditions

/-- The provider walk of generateWeatherSummary, with the cache write on the
first accepted result; none only if every provider raises.  The third
component counts invoked providers. -/
def providerLoop (w : WeatherSummaryInput) (now : Nat) :
    List AIProviderFun → CacheMap String → Option (String × CacheMap String × Nat)
  | [], _ => none
  | p :: ps, c =>
    match p w with
    | Except.ok s => some (s, cachePut (summaryCacheKey w) now s c, 1)
    | Except.error _ =>
      match providerLoop w now ps c with
      | some (s, c2, n) => some (s, c2, n + 1)
      | none => none

/-- WeatherAIService.generateWeatherSummary: check the summary cache and
return a valid hit; otherwise walk the providers in order; the terminal
constant is returned only when the walk exhausts every provider.  Returns
the summary, the summary cache afterwards, and the number of providers
invoked. -/
def generateWeatherSummary (pA pB : AIProviderFun) (cache : CacheMap String)
    (w : WeatherSummaryInput) (now : Nat) : String × CacheMap String × Nat :=
  match cacheGet SUMMARY_CACHE_TTL cache (summaryCacheKey w) now with
  | some s => (s, cache, 0)
  | none =>
    match providerLoop w now (serviceProviders pA pB) cache with
    | some r => r
    | none => ("Weather summary currently unavailable.", cache, 3)

theorem litHead_append_ne_empty (a b : String) (h : a.data ≠ []) :
    a ++ b ≠ "" := by
  intro hab
  apply h
  have hd : a.data ++ b.data = [] := congrArg String.data hab
  exact (List.append_eq_nil.mp hd).1

theorem fallbackGenerateSummary_ne_empty (w : WeatherSummaryInput) :
    fallbackGenerateSummary w ≠ "" := by
  unfold fallbackGenerateSummary
  exact litHead_append_ne_empty _ _ (by decide)

theorem providerLoop_service (pA pB : AIProviderFun) (w : WeatherSummaryInput)
    (now : Nat) (c : CacheMap String) :
    ∃ s n, providerLoop w now (serviceProviders pA pB) c =
      some (s, cachePut (summaryCacheKey w) now s c, n) := by
  cases hA : pA w with
  | ok sA => exact ⟨sA, 1, by simp [providerLoop, serviceProviders, hA]⟩
  | error eA =>
    cases hB : pB w with
    | ok sB => exact ⟨sB, 2, by simp [providerLoop, serviceProviders, hA, hB]⟩
    | error eB =>
      exact ⟨fallbackGenerateSummary w, 3,
        by simp [providerLoop, serviceProviders, hA, hB, fallbackProvider]⟩

/-- C3: for every weather payload, if provider A raises and provider B
raises, the resolver still returns a non-empty string produced by the
deterministic local fallback provider.  The resolver itself is a total
function: it never propagates a provider error to its caller. -/
theorem summary_fallback_chain (pA pB : AIProviderFun) (cache : CacheMap String)
    (w : WeatherSummaryInput) (now : Nat) (eA eB : String)
    (hA : pA w = Except.error eA) (hB : pB w = Except.error eB)
    (hmiss : cacheGet SUMMARY_CACHE_TTL cache (summaryCacheKey w) now = none) :
    (generateWeatherSummary pA pB cache w now).1 = fallbackGenerateSummary w ∧
    (generateWeatherSummary pA pB cache w now).1 ≠ "" := by
  have hloop : providerLoop w now (serviceProviders pA pB) cache =
      some (fallbackGenerateSummary w,
        cachePut (summaryCacheKey w) now (fallbackGenerateSummary w) cache, 3) := by
    simp [providerLoop, serviceProviders, hA, hB, fallbackProvider]
  have hres : generateWeatherSummary pA pB cache w now =
      (fallbackGenerateSummary w,
        cachePut (summaryCacheKey w) now (fallbackGenerateSummary w) cache, 3) := by
    unfold generateWeatherSummary
    rw [hmiss, hloop]
  rw [hres]
  exact ⟨rfl, fallbackGenerateSummary_ne_empty w⟩

/-- Concrete instance of summary_fallback_chain: with both network providers
raising their no-credentials errors, the resolver returns the fallback text,
which is non-empty. -/
theorem summary_fallback_chain_witness :
    (generateWeatherSummary (fun _ => Except.error "OpenAI API key not configured")
      (fun _ => Except.error "Hugging Face API key not configured") []
      ⟨⟨18, "clear", 5, 50, 1010, "London"⟩, none, none⟩ 0).1 =
      fallbackGenerateSummary ⟨⟨18, "clear", 5, 50, 1010, "London"⟩, none, none⟩ ∧
    (generateWeatherSummary (fun _ => Except.error "OpenAI API key not configured")
      (fun _ => Except.error "Hugging Face API key not configured") []
      ⟨⟨18, "clear", 5, 50, 1010, "London"⟩, none, none⟩ 0).1 ≠ "" :=
  summary_fallback_chain (fun _ => Except.error "OpenAI API key not configured")
    (fun _ => Except.error "Hugging Face API key not configured") []
    ⟨⟨18, "clear", 5, 50, 1010, "London"⟩, none, none⟩ 0
    "OpenAI API key not configured" "Hugging Face API key not configured"
    rfl rfl rfl

/-- C10: the provider list always ends with the local fallback provider,
whose generateSummary never throws, so the provider walk of
generateWeatherSummary returns on some provider for every input and every
behavior of the two network providers: the terminal return value after the
loop is unreachable. -/
theorem terminal_summary_unreachable (pA pB : AIProviderFun)
    (w : WeatherSummaryInput) (now : Nat) (cache : CacheMap String) :
    (serviceProviders pA pB).getLast? = some fallbackProvider ∧
    fallbackProvider w = Except.ok (fallbackGenerateSummary w) ∧
    (providerLoop w now (serviceProviders pA pB) cache).isSome = true := by
  refine ⟨rfl, rfl, ?_⟩
  obtain ⟨s, n, hloop⟩ := providerLoop_service pA pB w now cache
  rw [hloop]
  rfl

/-- C6 counterexample: two summary inputs with the same location, the same
condition text, and the same rounded temperature (18 and 18.3 both round to
18) receive different summary cache keys, because the key interpolates the
raw temperature: the key is not derived from the rounded temperature. -/
theorem summary_key_not_rounded :
    round (18 : Rat) = round (18.3 : Rat) ∧
    summaryCacheKey ⟨⟨18, "clear", 5, 50, 1010, "London"⟩, none, none⟩ ≠
      summaryCacheKey ⟨⟨18.3, "clear", 5, 50, 1010, "London"⟩, none, none⟩ := by
  constructor
  · rw [round_eq, round_eq]
    norm_num
  · have e1 : ratStr (18 : Rat) = "18" := by
      rw [ratStr, show (18 : Rat).num = 18 from by norm_num,
          show (18 : Rat).den = 1 from by norm_num]
      decide
    have e2 : ratStr (18.3 : Rat) = "183/10" := by
      rw [ratStr, show (18.3 : Rat).num = 183 from by norm_num,
          show (18.3 : Rat).den = 10 from by norm_num]
      decide
    simp only [summaryCacheKey, e1, e2]
    decide

/-- C6 amended: the summary cache key is derived from the location name, the
raw (exact, unrounded) temperature and the condition text — the raw
coordinate does not appear in the key or the input; consequently, for any
two payloads agreeing on those three fields, resolving the second within the
summary TTL returns the text cached by the first resolution, with zero
providers invoked and the cache unchanged. -/
theorem summary_key_reuse (pA pB : AIProviderFun) (cache : CacheMap String)
    (w1 w2 : WeatherSummaryInput) (t t2 : Nat)
    (hloc : w2.current.location = w1.current.location)
    (htemp : w2.current.temp = w1.current.temp)
    (hcond : w2.current.conditions = w1.current.conditions)
    (hmiss : cacheGet SUMMARY_CACHE_TTL cache (summaryCacheKey w1) t = none)
    (ht : t ≤ t2) (ht2 : t2 < t + SUMMARY_CACHE_TTL) :
    summaryCacheKey w2 = summaryCacheKey w1 ∧
    generateWeatherSummary pA pB (generateWeatherSummary pA pB cache w1 t).2.1 w2 t2 =
      ((generateWeatherSummary pA pB cache w1 t).1,
       (generateWeatherSummary pA pB cache w1 t).2.1, 0) := by
  have hkey : summaryCacheKey w2 = summaryCacheKey w1 := by
    unfold summaryCacheKey
    rw [hloc, htemp, hcond]
  obtain ⟨s, n, hloop⟩ := providerLoop_service pA pB w1 t cache
  have h1 : generateWeatherSummary pA pB cache w1 t =
      (s, cachePut (summaryCacheKey w1) t s cache, n) := by
    unfold generateWeatherSummary
    rw [hmiss, hloop]
  have hhit : cacheGet SUMMARY_CACHE_TTL (cachePut (summaryCacheKey w1) t s cache)
      (summaryCacheKey w2) t2 = some s := by
    rw [hkey]
    unfold cacheGet
    rw [lookup_cachePut_self]
    simp only
    rw [if_pos (by omega)]
  refine ⟨hkey, ?_⟩
  rw [h1]
  unfold generateWeatherSummary
  rw [hhit]

/-- Concrete instance of summary_key_reuse: a second input differing from
the first only in wind speed (and thus in the generated text, were it
regenerated) reuses the cached summary within the TTL with zero providers
invoked. -/
theorem summary_key_reuse_witness :
    summaryCacheKey ⟨⟨18, "clear", 6, 50, 1010, "London"⟩, none, none⟩ =
      summaryCacheKey ⟨⟨18, "clear", 5, 50, 1010, "London"⟩, none, none⟩ ∧
    generateWeatherSummary (fun _ => Except.error "OpenAI API key not configured")
      (fun _ => Except.error "Hugging Face API key not configured")
      (generateWeatherSummary (fun _ => Except.error "OpenAI API key not configured")
        (fun _ => Except.error "Hugging Face API key not configured") []
        ⟨⟨18, "clear", 5, 50, 1010, "London"⟩, none, none⟩ 0).2.1
      ⟨⟨18, "clear", 6, 50, 1010, "London"⟩, none, none⟩ 10 =
      ((generateWeatherSummary (fun _ => Except.error "OpenAI API key not configured")
        (fun _ => Except.error "Hugging Face API key not configured") []
        ⟨⟨18, "clear", 5, 50, 1010, "London"⟩, none, none⟩ 0).1,
       (generateWeatherSummary (fun _ => Except.error "OpenAI API key not configured")
        (fun _ => Except.error "Hugging Face API key not configured") []
        ⟨⟨18, "clear", 5, 50, 1010, "London"⟩, none, none⟩ 0).2.1, 0) :=
  summary_key_reuse (fun _ => Except.error "OpenAI API key not configured")
    (fun _ => Except.error "Hugging Face API key not configured") []
    ⟨⟨18, "clear", 5, 50, 1010, "London"⟩, none, none⟩
    ⟨⟨18, "clear", 6, 50, 1010, "London"⟩, none, none⟩ 0 10
    rfl rfl rfl rfl (by decide) (by decide)

/-- WeatherAIService.cleanCache: delete every entry of the summary cache
whose age strictly exceeds the namespace TTL.  The constructor schedules it
every CLEAN_CACHE_INTERVAL_MS.  WeatherMap.tsx schedules no analogous sweep
for the weather cache. -/
def cleanCache {α : Type} (ttl now : Nat) (c : CacheMap α) : CacheMap α :=
  c.filter (fun e => ! decide (now - e.2.1 > ttl))

/-- C8 counterexample: in the weather namespace, a stale read does not
delete the entry.  A weather cache holding an entry of exactly TTL age
misses on read, and a subsequent failing fetch for the same key leaves the
stale entry stored unchanged; no sweep exists for this namespace. -/
theorem weather_stale_entry_persists :
    cacheGet CACHE_TTL_MS
      [("51.5007,-0.1246", 0, (⟨"c", "f", "a"⟩ : WeatherPayload))]
      "51.5007,-0.1246" CACHE_TTL_MS = none ∧
    (fetchWeather [("51.5007,-0.1246", 0, ⟨"c", "f", "a"⟩)] 51.5007 (-0.1246)
        CACHE_TTL_MS ⟨false, 500, none, ""⟩ ⟨true, 200, none, "f"⟩
        ⟨true, 200, none, "a"⟩).cache =
      [("51.5007,-0.1246", 0, ⟨"c", "f", "a"⟩)] := by
  constructor
  · decide
  · unfold fetchWeather
    rw [coordKey_eval_b]
    decide

/-- C8 amended: in both namespaces the read returns a miss both when the key
is absent and when the stored entry's age is at least the namespace TTL, and
the read deletes nothing; only the summary namespace has a periodic sweep
(cleanCache, scheduled every 15 minutes) and it evicts exactly the entries
strictly older than that namespace's TTL; stale weather entries persist
until overwritten by a successful fetch. -/
theorem cache_staleness_behavior {α : Type} (ttl now ts : Nat) (c : CacheMap α)
    (k : String) (v : α) :
    (c.lookup k = none → cacheGet ttl c k now = none) ∧
    (c.lookup k = some (ts, v) → ttl ≤ now - ts → cacheGet ttl c k now = none) ∧
    (∀ e : String × Nat × α, e ∈ cleanCache ttl now c ↔ e ∈ c ∧ now - e.2.1 ≤ ttl) ∧
    CLEAN_CACHE_INTERVAL_MS = 15 * 60 * 1000 := by
  refine ⟨fun h => ?_, fun h hstale => ?_, fun e => ?_, rfl⟩
  · unfold cacheGet
    rw [h]
  · unfold cacheGet
    rw [h]
    simp only
    rw [if_neg (by omega)]
  · unfold cleanCache
    rw [List.mem_filter]
    constructor
    · rintro ⟨h1, h2⟩
      refine ⟨h1, ?_⟩
      simp only [Bool.not_eq_true', decide_eq_false_iff_not, gt_iff_lt, not_lt] at h2
      exact h2
    · rintro ⟨h1, h2⟩
      refine ⟨h1, ?_⟩
      simp only [Bool.not_eq_true', decide_eq_false_iff_not, gt_iff_lt, not_lt]
      exact h2

/-- Concrete instance of cache_staleness_behavior: an absent key misses, an
entry of age exactly TTL misses, the sweep keeps a fresh entry and drops a
stale one, and the sweep interval is 15 minutes. -/
theorem cache_staleness_behavior_witness :
    cacheGet SUMMARY_CACHE_TTL ([] : CacheMap String) "k" 5 = none ∧
    cacheGet SUMMARY_CACHE_TTL [("k", 0, "text")] "k" SUMMARY_CACHE_TTL = none ∧
    (("k", 0, "text") ∈
        cleanCache SUMMARY_CACHE_TTL (SUMMARY_CACHE_TTL + 1) [("k", 0, "text")] ↔
      ("k", 0, "text") ∈ [("k", (0 : Nat), "text")] ∧
        SUMMARY_CACHE_TTL + 1 - 0 ≤ SUMMARY_CACHE_TTL) ∧
    CLEAN_CACHE_INTERVAL_MS = 15 * 60 * 1000 := by
  have h1 := cache_staleness_behavior (α := String) SUMMARY_CACHE_TTL 5 0 [] "k" "text"
  have h2 := cache_staleness_behavior (α := String) SUMMARY_CACHE_TTL SUMMARY_CACHE_TTL 0
    [("k", 0, "text")] "k" "text"
  have h3 := cache_staleness_behavior (α := String) SUMMARY_CACHE_TTL
    (SUMMARY_CACHE_TTL + 1) 0 [("k", 0, "text")] "k" "text"
  exact ⟨h1.1 rfl, h2.2.1 rfl (by decide), h3.2.2.1 ("k", 0, "text"), h3.2.2.2⟩

/-- Which provider backs an overlay tile URL: the OpenWeatherMap tile
service (static, no date component) or the NASA GIBS satellite archive
(addressed by calendar date). -/
inductive TileSource
  | owm
  | gibs
deriving DecidableEq

/-- Placeholder for the OpenWeather API key interpolated into tile URLs. -/
def OPENWEATHER_KEY : String := "OPENWEATHER_KEY"

/-- gibUrl of WeatherMap.tsx: the GIBS WMTS template for a layer and date. -/
def gibUrl (layerId dateStr : String) : String :=
  "https://gibs.earthdata.nasa.gov/wmts/epsg3857/best/" ++ layerId ++
    "/default/" ++ dateStr ++ "/GoogleMapsCompatible_Level9/{z}/{y}/{x}.jpg"

/-- An OpenWeatherMap tile template for a map path. -/
def owmTileUrl (path : String) : String :=
  "https://tile.openweathermap.org/map/" ++ path ++
    "/{z}/{x}/{y}.png?appid=" ++ OPENWEATHER_KEY

/-- getTileUrl of WeatherMap.tsx: the OWM-supported ids map to static OWM
templates; five further ids fall back to date-parameterized GIBS templates;
anything else is unknown (null). -/
def getTileUrl (layerId dateStr : String) : Option (String × TileSource) :=
  if layerId = "temperature" then some (owmTileUrl "temp_new", TileSource.owm)
  else if layerId = "precipitation" then some (owmTileUrl "precipitation_new", TileSource.owm)
  else if layerId = "wind" then some (owmTileUrl "wind_new", TileSource.owm)
  else if layerId = "pressure" then some (owmTileUrl "pressure_new", TileSource.owm)
  else if layerId = "clouds" then some (owmTileUrl "clouds_new", TileSource.owm)
  else if layerId = "snow" then some (owmTileUrl "snow_new", TileSource.owm)
  else if layerId = "wind_gust" then some (owmTileUrl "wind_gust", TileSource.owm)
  else if layerId = "humidity" then some (gibUrl "MERRA2_RelativeHumidity_2m" dateStr, TileSource.gibs)
  else if layerId = "dewpoint" then some (gibUrl "AIRS_L3_Surface_Temperature_Day" dateStr, TileSource.gibs)
  else if layerId = "feels_like" then some (gibUrl "AIRS_L3_Surface_Temperature_Day" dateStr, TileSource.gibs)
  else if layerId = "visibility" then some (gibUrl "MODIS_Terra_Aerosol" dateStr, TileSource.gibs)
  else if layerId = "uvi" then some (gibUrl "OMI_L2_UV_Index" dateStr, TileSource.gibs)
  else none

/-- A layer id is known iff getTileUrl resolves it (for any date). -/
def isKnown (layerId : String) : Bool := (getTileUrl layerId "").isSome

theorem getTileUrl_isSome (layerId d : String) :
    (getTileUrl layerId d).isSome = isKnown layerId := by
  unfold isKnown getTileUrl
  by_cases h1 : layerId = "temperature"
  · simp only [if_pos h1, Option.isSome_some]
  · simp only [if_neg h1]
    by_cases h2 : layerId = "precipitation"
    · simp only [if_pos h2, Option.isSome_some]
    · simp only [if_neg h2]
      by_cases h3 : layerId = "wind"
      · simp only [if_pos h3, Option.isSome_some]
      · simp only [if_neg h3]
        by_cases h4 : layerId = "pressure"
        · simp only [if_pos h4, Option.isSome_some]
        · simp only [if_neg h4]
          by_cases h5 : layerId = "clouds"
          · simp only [if_pos h5, Option.isSome_some]
          · simp only [if_neg h5]
            by_cases h6 : layerId = "snow"
            · simp only [if_pos h6, Option.isSome_some]
            · simp only [if_neg h6]
              by_cases h7 : layerId = "wind_gust"
              · simp only [if_pos h7, Option.isSome_some]
              · simp only [if_neg h7]
                by_cases h8 : layerId = "humidity"
                · simp only [if_pos h8, Option.isSome_some]
                · simp only [if_neg h8]
                  by_cases h9 : layerId = "dewpoint"
                  · simp only [if_pos h9, Option.isSome_some]
                  · simp only [if_neg h9]
                    by_cases h10 : layerId = "feels_like"
                    · simp only [if_pos h10, Option.isSome_some]
                    · simp only [if_neg h10]
                      by_cases h11 : layerId = "visibility"
                      · simp only [if_pos h11, Option.isSome_some]
                      · simp only [if_neg h11]
                        by_cases h12 : layerId = "uvi"
                        · simp only [if_pos h12, Option.isSome_some]
                        · simp only [if_neg h12]

/-- One attach or detach of an overlay tile layer on the map surface. -/
inductive OverlayOp
  | attach (layerId : String)
  | detach (layerId : String)
deriving DecidableEq

/-- Per-surface overlay registry state of WeatherMap.tsx:
created is weatherLayers.current (layer id to the date its tile URL was
built with); activeIds is activeOverlayIds.current; mapLayers holds the ids
whose created tile layer is currently added to the map. -/
structure OverlayState where
  created : List (String × String)
  activeIds : List String
  mapLayers : List String
deriving DecidableEq

/-- addOverlay of WeatherMap.tsx: skip an id already marked active; create
the tile layer from getTileUrl if absent, skipping unknown ids; then add the
layer to the map and mark the id active unless the layer is already on the
map. -/
def addOverlay (st : OverlayState) (dateStr : String) (layerId : String) :
    OverlayState × List OverlayOp :=
  if layerId ∈ st.activeIds then (st, [])
  else
    match st.created.lookup layerId with
    | some _ =>
      if layerId ∈ st.mapLayers then (st, [])
      else
        (⟨st.created, layerId :: st.activeIds, layerId :: st.mapLayers⟩,
         [OverlayOp.attach layerId])
    | none =>
      match getTileUrl layerId dateStr with
      | none => (st, [])
      | some _ =>
        (⟨(layerId, dateStr) :: st.created, layerId :: st.activeIds,
          layerId :: st.mapLayers⟩,
         [OverlayOp.attach layerId])

/-- removeOverlay of WeatherMap.tsx: remove the created layer from the map
if it is on it, and always drop the id from activeIds. -/
def removeOverlay (st : OverlayState) (layerId : String) :
    OverlayState × List OverlayOp :=
  if (st.created.lookup layerId).isSome = true ∧ layerId ∈ st.mapLayers then
    (⟨st.created, st.activeIds.filter (fun i => i != layerId),
      st.mapLayers.filter (fun i => i != layerId)⟩,
     [OverlayOp.detach layerId])
  else
    (⟨st.created, st.activeIds.filter (fun i => i != layerId), st.mapLayers⟩, [])

/-- Sequences a per-id step over a list of ids, threading the registry state
and concatenating the emitted surface operations. -/
def runOps (f : OverlayState → String → OverlayState × List OverlayOp) :
    OverlayState → List String → OverlayState × List OverlayOp
  | st, [] => (st, [])
  | st, x :: xs =>
    let r1 := f st x
    let r2 := runOps f r1.1 xs
    (r2.1, r1.2 ++ r2.2)

/-- Removal step of the overlay-sync effect: keep an id that is desired,
remove one that is not. -/
def removeStep (desired : List String) (s : OverlayState) (i : String) :
    OverlayState × List OverlayOp :=
  if i ∈ desired then (s, []) else removeOverlay s i

/-- Addition step of the overlay-sync effect: skip an id already active,
add one that is not. -/
def addStep (dateStr : String) (s : OverlayState) (i : String) :
    OverlayState × List OverlayOp :=
  if i ∈ s.activeIds then (s, []) else addOverlay s dateStr i

/-- The overlay-sync effect of WeatherMap.tsx: compute the desired set from
activeWeatherLayers, remove every currently active id not desired (iterating
a snapshot of activeIds), then add every desired id not currently active. -/
def reconcileOverlays (st : OverlayState) (activeWeatherLayers : List String)
    (dateStr : String) : OverlayState × List OverlayOp :=
  let desired := activeWeatherLayers.dedup
  let r1 := runOps (removeStep desired) st st.activeIds
  let r2 := runOps (addStep dateStr) r1.1 desired
  (r2.1, r1.2 ++ r2.2)

/-- The basemap/date effect of WeatherMap.tsx (it also runs whenever the
reference date changes): first remove every tile layer from the map (the
basemap and every attached overlay), re-add the basemap, then for every
created layer id whose descriptor is GIBS-backed remove it from the map if
still present, delete it from created and activeIds, and re-add it through
addOverlay with the new date.  OWM-backed (static) created layers are left
deleted from the map and are not re-added. -/
def dateChangeEffect (st : OverlayState) (newDate : String) :
    OverlayState × List OverlayOp :=
  let sweepOps := st.mapLayers.map OverlayOp.detach
  let st1 : OverlayState := ⟨st.created, st.activeIds, []⟩
  let r2 := runOps
    (fun s i =>
      match getTileUrl i newDate with
      | some (_, TileSource.gibs) =>
        let removed : OverlayState × List OverlayOp :=
          if i ∈ s.mapLayers then
            (⟨s.created, s.activeIds, s.mapLayers.filter (fun j => j != i)⟩,
             [OverlayOp.detach i])
          else (s, [])
        let s2 : OverlayState :=
          ⟨removed.1.created.filter (fun e => e.1 != i),
           removed.1.activeIds.filter (fun j => j != i), removed.1.mapLayers⟩
        let r3 := addOverlay s2 newDate i
        (r3.1, removed.2 ++ r3.2)
      | _ => (s, []))
    st1 (st.created.map (fun e => e.1))
  (r2.1, sweepOps ++ r2.2)

/-- C4 evaluation (the claim fails on this input): with the date-sensitive
id humidity (GIBS-backed) and the static id temperature (OWM-backed) both
attached and desired, a change of the reference date makes the basemap/date
effect emit exactly one detach and one attach for humidity, but also one
detach and no attach for temperature: its tile layer is removed from the map
by the remove-all-tile-layers sweep and never re-added, while its id stays
in activeOverlayIds, so the overlay-sync effect will not restore it either.
-/
theorem date_change_static_overlay_lost :
    (dateChangeEffect
        ⟨[("humidity", "2024-01-01"), ("temperature", "2024-01-01")],
         ["humidity", "temperature"], ["humidity", "temperature"]⟩
        "2024-01-02").2 =
      [OverlayOp.detach "humidity", OverlayOp.detach "temperature",
       OverlayOp.attach "humidity"] ∧
    (dateChangeEffect
        ⟨[("humidity", "2024-01-01"), ("temperature", "2024-01-01")],
         ["humidity", "temperature"], ["humidity", "temperature"]⟩
        "2024-01-02").1.mapLayers = ["humidity"] ∧
    (dateChangeEffect
        ⟨[("humidity", "2024-01-01"), ("temperature", "2024-01-01")],
         ["humidity", "temperature"], ["humidity", "temperature"]⟩
        "2024-01-02").1.activeIds = ["humidity", "temperature"] := by
  refine ⟨?_, ?_, ?_⟩ <;> decide

theorem lookup_mem_pairs (l : List (String × String)) (k v : String)
    (h : l.lookup k = some v) : (k, v) ∈ l := by
  induction l with
  | nil => simp [List.lookup] at h
  | cons e tl ih =>
    obtain ⟨k1, v1⟩ := e
    rw [List.lookup] at h
    by_cases hk : k = k1
    · subst hk
      simp only [beq_self_eq_true] at h
      injection h with h
      subst h
      exact List.mem_cons_self _ _
    · rw [beq_false_of_ne hk] at h
      exact List.mem_cons_of_mem _ (ih h)

theorem removeOverlay_created (st : OverlayState) (i : String) :
    (removeOverlay st i).1.created = st.created := by
  unfold removeOverlay
  split <;> rfl

theorem removeOverlay_active_mem (st : OverlayState) (i j : String) :
    j ∈ (removeOverlay st i).1.activeIds ↔ j ∈ st.activeIds ∧ j ≠ i := by
  unfold removeOverlay
  split <;> simp [List.mem_filter]

theorem removeOverlay_map_mem (st : OverlayState) (i j : String)
    (hml : ∀ x ∈ st.mapLayers, (st.created.lookup x).isSome = true) :
    j ∈ (removeOverlay st i).1.mapLayers ↔ j ∈ st.mapLayers ∧ j ≠ i := by
  unfold removeOverlay
  split
  · simp [List.mem_filter]
  · rename_i hcond
    simp only
    constructor
    · intro hj
      refine ⟨hj, fun he => hcond ⟨hml i (he ▸ hj), he ▸ hj⟩⟩
    · exact fun h => h.1

theorem runOps_id (f : OverlayState → String → OverlayState × List OverlayOp)
    (st : OverlayState) (l : List String) (h : ∀ x ∈ l, f st x = (st, [])) :
    runOps f st l = (st, []) := by
  induction l with
  | nil => rfl
  | cons x xs ih =>
    unfold runOps
    rw [h x (List.mem_cons_self x xs)]
    simp [ih (fun y hy => h y (List.mem_cons_of_mem x hy))]

theorem runOps_cons (f : OverlayState → String → OverlayState × List OverlayOp)
    (st : OverlayState) (x : String) (xs : List String) :
    runOps f st (x :: xs) =
      ((runOps f (f st x).1 xs).1, (f st x).2 ++ (runOps f (f st x).1 xs).2) := rfl

theorem runOps_remove_spec (d : List String) (l : List String) :
    ∀ st : OverlayState,
      (∀ x ∈ st.mapLayers, (st.created.lookup x).isSome = true) →
      (runOps (removeStep d) st l).1.created = st.created ∧
      (∀ j, j ∈ (runOps (removeStep d) st l).1.activeIds ↔
        j ∈ st.activeIds ∧ (j ∈ l → j ∈ d)) ∧
      (∀ j, j ∈ (runOps (removeStep d) st l).1.mapLayers ↔
        j ∈ st.mapLayers ∧ (j ∈ l → j ∈ d)) := by
  induction l with
  | nil =>
    intro st hml
    exact ⟨rfl, fun j => by simp [runOps], fun j => by simp [runOps]⟩
  | cons x xs ih =>
    intro st hml
    by_cases hx : x ∈ d
    · have hstep : removeStep d st x = (st, []) := by
        unfold removeStep
        rw [if_pos hx]
      obtain ⟨h1, h2, h3⟩ := ih st hml
      simp only [runOps_cons, hstep]
      refine ⟨h1, fun j => ?_, fun j => ?_⟩
      · rw [h2 j]
        constructor
        · rintro ⟨hj, himp⟩
          exact ⟨hj, fun hm => (List.mem_cons.mp hm).elim (fun he => he ▸ hx) himp⟩
        · rintro ⟨hj, himp⟩
          exact ⟨hj, fun hm => himp (List.mem_cons_of_mem _ hm)⟩
      · rw [h3 j]
        constructor
        · rintro ⟨hj, himp⟩
          exact ⟨hj, fun hm => (List.mem_cons.mp hm).elim (fun he => he ▸ hx) himp⟩
        · rintro ⟨hj, himp⟩
          exact ⟨hj, fun hm => himp (List.mem_cons_of_mem _ hm)⟩
    · have hstep : removeStep d st x = removeOverlay st x := by
        unfold removeStep
        rw [if_neg hx]
      have hml2 : ∀ y ∈ (removeOverlay st x).1.mapLayers,
          ((removeOverlay st x).1.created.lookup y).isSome = true := by
        intro y hy
        rw [removeOverlay_created]
        exact hml y ((removeOverlay_map_mem st x y hml).mp hy).1
      obtain ⟨h1, h2, h3⟩ := ih (removeOverlay st x).1 hml2
      simp only [runOps_cons, hstep]
      refine ⟨by rw [h1, removeOverlay_created], fun j => ?_, fun j => ?_⟩
      · rw [h2 j, removeOverlay_active_mem]
        constructor
        · rintro ⟨⟨hj, hne⟩, himp⟩
          exact ⟨hj, fun hm => (List.mem_cons.mp hm).elim (fun he => absurd he hne) himp⟩
        · rintro ⟨hj, himp⟩
          have hne : j ≠ x := fun he => hx (he ▸ himp (List.mem_cons.mpr (Or.inl he)))
          exact ⟨⟨hj, hne⟩, fun hm => himp (List.mem_cons_of_mem _ hm)⟩
      · rw [h3 j, removeOverlay_map_mem st x j hml]
        constructor
        · rintro ⟨⟨hj, hne⟩, himp⟩
          exact ⟨hj, fun hm => (List.mem_cons.mp hm).elim (fun he => absurd he hne) himp⟩
        · rintro ⟨hj, himp⟩
          have hne : j ≠ x := fun he => hx (he ▸ himp (List.mem_cons.mpr (Or.inl he)))
          exact ⟨⟨hj, hne⟩, fun hm => himp (List.mem_cons_of_mem _ hm)⟩

/-- Registry well-formedness maintained by the overlay-sync logic: every id
on the map has a created layer, activeIds and the map agree, and only known
ids are active or created. -/
def OverlayWF (st : OverlayState) : Prop :=
  (∀ i ∈ st.mapLayers, (st.created.lookup i).isSome = true) ∧
  (∀ i ∈ st.activeIds, i ∈ st.mapLayers) ∧
  (∀ i ∈ st.mapLayers, i ∈ st.activeIds) ∧
  (∀ i ∈ st.activeIds, isKnown i = true) ∧
  (∀ e ∈ st.created, isKnown e.1 = true)

theorem lookup_cons_pairs (cr : List (String × String)) (i d j : String) :
    (((i, d) :: cr : List (String × String)).lookup j) =
      if j = i then some d else cr.lookup j := by
  rw [List.lookup]
  by_cases h : j = i
  · rw [if_pos h, show (j == i) = true from beq_iff_eq.mpr h]
  · rw [if_neg h, beq_false_of_ne h]

theorem addStep_spec (dt : String) (st : OverlayState) (x : String)
    (hwf : OverlayWF st) :
    OverlayWF (addStep dt st x).1 ∧
    (∀ j, j ∈ (addStep dt st x).1.activeIds ↔
      j ∈ st.activeIds ∨ (j = x ∧ isKnown x = true)) ∧
    (x ∈ st.activeIds ∨ isKnown x = false → addStep dt st x = (st, [])) := by
  obtain ⟨hw1, hw2, hw3, hw4, hw5⟩ := hwf
  by_cases ha : x ∈ st.activeIds
  · have hid : addStep dt st x = (st, []) := by
      unfold addStep
      rw [if_pos ha]
    rw [hid]
    refine ⟨⟨hw1, hw2, hw3, hw4, hw5⟩, fun j => ?_, fun _ => rfl⟩
    constructor
    · exact Or.inl
    · rintro (hj | ⟨he, _⟩)
      · exact hj
      · exact he ▸ ha
  · have hstep : addStep dt st x = addOverlay st dt x := by
      unfold addStep
      rw [if_neg ha]
    rw [hstep]
    cases hcr : st.created.lookup x with
    | some v =>
      have hkx : isKnown x = true := hw5 (x, v) (lookup_mem_pairs _ _ _ hcr)
      have hnm : x ∉ st.mapLayers := fun hm => ha (hw3 x hm)
      have hres : addOverlay st dt x =
          (⟨st.created, x :: st.activeIds, x :: st.mapLayers⟩,
           [OverlayOp.attach x]) := by
        simp [addOverlay, ha, hcr, hnm]
      rw [hres]
      refine ⟨⟨?_, ?_, ?_, ?_, hw5⟩, fun j => ?_, fun hc => ?_⟩
      · intro y hy
        rcases List.mem_cons.mp hy with he | hm
        · rw [he, hcr]
          rfl
        · exact hw1 y hm
      · intro y hy
        rcases List.mem_cons.mp hy with he | hm
        · exact he ▸ List.mem_cons_self _ _
        · exact List.mem_cons_of_mem _ (hw2 y hm)
      · intro y hy
        rcases List.mem_cons.mp hy with he | hm
        · exact he ▸ List.mem_cons_self _ _
        · exact List.mem_cons_of_mem _ (hw3 y hm)
      · intro y hy
        rcases List.mem_cons.mp hy with he | hm
        · exact he ▸ hkx
        · exact hw4 y hm
      · constructor
        · intro hj
          rcases List.mem_cons.mp hj with he | hm
          · exact Or.inr ⟨he, hkx⟩
          · exact Or.inl hm
        · rintro (hj | ⟨he, _⟩)
          · exact List.mem_cons_of_mem _ hj
          · exact he ▸ List.mem_cons_self _ _
      · rcases hc with hc | hc
        · exact absurd hc ha
        · rw [hkx] at hc
          exact absurd hc (by decide)
    | none =>
      cases hg : getTileUrl x dt with
      | none =>
        have hkx : isKnown x = false := by
          rw [← getTileUrl_isSome x dt, hg]
          rfl
        have hres : addOverlay st dt x = (st, []) := by
          simp [addOverlay, ha, hcr, hg]
        rw [hres]
        refine ⟨⟨hw1, hw2, hw3, hw4, hw5⟩, fun j => ?_, fun _ => rfl⟩
        constructor
        · exact Or.inl
        · rintro (hj | ⟨he, hk⟩)
          · exact hj
          · rw [hkx] at hk
            exact absurd hk (by decide)
      | some u =>
        have hkx : isKnown x = true := by
          rw [← getTileUrl_isSome x dt, hg]
          rfl
        have hres : addOverlay st dt x =
            (⟨(x, dt) :: st.created, x :: st.activeIds, x :: st.mapLayers⟩,
             [OverlayOp.attach x]) := by
          simp [addOverlay, ha, hcr, hg]
        rw [hres]
        refine ⟨⟨?_, ?_, ?_, ?_, ?_⟩, fun j => ?_, fun hc => ?_⟩
        · intro y hy
          rw [lookup_cons_pairs]
          by_cases he : y = x
          · rw [if_pos he]
            rfl
          · rw [if_neg he]
            rcases List.mem_cons.mp hy with h | h
            · exact absurd h he
            · exact hw1 y h
        · intro y hy
          rcases List.mem_cons.mp hy with he | hm
          · exact he ▸ List.mem_cons_self _ _
          · exact List.mem_cons_of_mem _ (hw2 y hm)
        · intro y hy
          rcases List.mem_cons.mp hy with he | hm
          · exact he ▸ List.mem_cons_self _ _
          · exact List.mem_cons_of_mem _ (hw3 y hm)
        · intro y hy
          rcases List.mem_cons.mp hy with he | hm
          · exact he ▸ hkx
          · exact hw4 y hm
        · intro e he
          rcases List.mem_cons.mp he with h | h
          · rw [h]
            exact hkx
          · exact hw5 e h
        · constructor
          · intro hj
            rcases List.mem_cons.mp hj with he | hm
            · exact Or.inr ⟨he, hkx⟩
            · exact Or.inl hm
          · rintro (hj | ⟨he, _⟩)
            · exact List.mem_cons_of_mem _ hj
            · exact he ▸ List.mem_cons_self _ _
        · rcases hc with hc | hc
          · exact absurd hc ha
          · rw [hkx] at hc
            exact absurd hc (by decide)

theorem runOps_add_spec (dt : String) (l : List String) :
    ∀ st : OverlayState, OverlayWF st →
      OverlayWF (runOps (addStep dt) st l).1 ∧
      (∀ j, j ∈ (runOps (addStep dt) st l).1.activeIds ↔
        j ∈ st.activeIds ∨ (j ∈ l ∧ isKnown j = true)) := by
  induction l with
  | nil =>
    intro st hwf
    exact ⟨hwf, fun j => by simp [runOps]⟩
  | cons x xs ih =>
    intro st hwf
    obtain ⟨hwf1, hmem1, _⟩ := addStep_spec dt st x hwf
    obtain ⟨hwfF, hmemF⟩ := ih (addStep dt st x).1 hwf1
    refine ⟨hwfF, fun j => ?_⟩
    have hstep : j ∈ (runOps (addStep dt) st (x :: xs)).1.activeIds ↔
        j ∈ (addStep dt st x).1.activeIds ∨ (j ∈ xs ∧ isKnown j = true) := hmemF j
    rw [hstep, hmem1 j]
    constructor
    · rintro ((hj | ⟨he, hk⟩) | ⟨hx2, hk⟩)
      · exact Or.inl hj
      · exact Or.inr ⟨List.mem_cons.mpr (Or.inl he), by rw [he]; exact hk⟩
      · exact Or.inr ⟨List.mem_cons_of_mem _ hx2, hk⟩
    · rintro (hj | ⟨hm, hk⟩)
      · exact Or.inl (Or.inl hj)
      · rcases List.mem_cons.mp hm with he | hx2
        · exact Or.inl (Or.inr ⟨he, he ▸ hk⟩)
        · exact Or.inr ⟨hx2, hk⟩

/-- C5: after any reconciliation pass over a well-formed registry with
desired set S, the attached overlay set is set-equal to S whenever S holds
only known layer ids (every id the layer selector offers is known; an
unknown id is skipped, so in general the attached set equals S restricted to
known ids), the attached set is always a subset of the known layer ids, and
a second pass with the same desired set and date returns the same state and
performs zero attach or detach operations. -/
theorem reconcile_spec (st : OverlayState) (S : List String) (dt : String)
    (hwf : OverlayWF st) :
    (∀ j, j ∈ (reconcileOverlays st S dt).1.activeIds ↔
      j ∈ S ∧ isKnown j = true) ∧
    (∀ j ∈ (reconcileOverlays st S dt).1.activeIds, isKnown j = true) ∧
    ((∀ j ∈ S, isKnown j = true) →
      ∀ j, j ∈ (reconcileOverlays st S dt).1.activeIds ↔ j ∈ S) ∧
    reconcileOverlays (reconcileOverlays st S dt).1 S dt =
      ((reconcileOverlays st S dt).1, []) := by
  obtain ⟨hw1, hw2, hw3, hw4, hw5⟩ := hwf
  obtain ⟨hr1, hr2, hr3⟩ := runOps_remove_spec S.dedup st.activeIds st hw1
  have hwf1 : OverlayWF (runOps (removeStep S.dedup) st st.activeIds).1 := by
    refine ⟨?_, ?_, ?_, ?_, ?_⟩
    · intro i hi
      rw [hr1]
      exact hw1 i ((hr3 i).mp hi).1
    · intro i hi
      have h := (hr2 i).mp hi
      exact (hr3 i).mpr ⟨hw2 i h.1, h.2⟩
    · intro i hi
      have h := (hr3 i).mp hi
      exact (hr2 i).mpr ⟨hw3 i h.1, h.2⟩
    · intro i hi
      exact hw4 i ((hr2 i).mp hi).1
    · intro e he
      rw [hr1] at he
      exact hw5 e he
  obtain ⟨hwfF, hmemF⟩ :=
    runOps_add_spec dt S.dedup (runOps (removeStep S.dedup) st st.activeIds).1 hwf1
  have heq : (reconcileOverlays st S dt).1 =
      (runOps (addStep dt) (runOps (removeStep S.dedup) st st.activeIds).1 S.dedup).1 := rfl
  have hchar : ∀ j, j ∈ (reconcileOverlays st S dt).1.activeIds ↔
      j ∈ S ∧ isKnown j = true := by
    intro j
    rw [heq, hmemF j, hr2 j]
    constructor
    · rintro (⟨hj, himp⟩ | ⟨hm, hk⟩)
      · exact ⟨List.mem_dedup.mp (himp hj), hw4 j hj⟩
      · exact ⟨List.mem_dedup.mp hm, hk⟩
    · rintro ⟨hm, hk⟩
      exact Or.inr ⟨List.mem_dedup.mpr hm, hk⟩
  have hwfF2 : OverlayWF (reconcileOverlays st S dt).1 := by
    rw [heq]
    exact hwfF
  refine ⟨hchar, fun j hj => ((hchar j).mp hj).2,
    fun hS j => ⟨fun hj => ((hchar j).mp hj).1,
      fun hj => (hchar j).mpr ⟨hj, hS j hj⟩⟩, ?_⟩
  have hA : runOps (removeStep S.dedup) (reconcileOverlays st S dt).1
      (reconcileOverlays st S dt).1.activeIds = ((reconcileOverlays st S dt).1, []) := by
    apply runOps_id
    intro x hx
    unfold removeStep
    rw [if_pos (List.mem_dedup.mpr ((hchar x).mp hx).1)]
  have hB : runOps (addStep dt) (reconcileOverlays st S dt).1 S.dedup =
      ((reconcileOverlays st S dt).1, []) := by
    apply runOps_id
    intro x hx
    obtain ⟨_, _, hid⟩ := addStep_spec dt (reconcileOverlays st S dt).1 x hwfF2
    cases hk : isKnown x with
    | true => exact hid (Or.inl ((hchar x).mpr ⟨List.mem_dedup.mp hx, hk⟩))
    | false => exact hid (Or.inr hk)
  set F := (reconcileOverlays st S dt).1 with hF
  simp [reconcileOverlays, hA, hB]

/-- Concrete instance of reconcile_spec: from the empty registry with
desired set [temperature, wind], the attached set contains temperature, and
a second identical pass returns the same state with zero operations. -/
theorem reconcile_spec_witness :
    ("temperature" ∈
        (reconcileOverlays ⟨[], [], []⟩ ["temperature", "wind"] "2024-01-01").1.activeIds ↔
      "temperature" ∈ ["temperature", "wind"]) ∧
    reconcileOverlays
        (reconcileOverlays ⟨[], [], []⟩ ["temperature", "wind"] "2024-01-01").1
        ["temperature", "wind"] "2024-01-01" =
      ((reconcileOverlays ⟨[], [], []⟩ ["temperature", "wind"] "2024-01-01").1, []) := by
  have h := reconcile_spec ⟨[], [], []⟩ ["temperature", "wind"] "2024-01-01"
    (by refine ⟨?_, ?_, ?_, ?_, ?_⟩ <;> decide)
  exact ⟨h.2.2.1 (by decide) "temperature", h.2.2.2⟩

/-- A high-level command forwarded to a rendering surface. -/
inductive SurfaceCmd
  | locate
  | measure
  | zoomInCmd
  | zoomOutCmd
  | flyToCmd
  | search
deriving DecidableEq

/-- An observable effect of a coordinator handler in Index.tsx: a command
delegated to the mounted 2D map or 3D globe, or a toast shown to the user.
Handlers are total functions into effect lists: none of them can raise. -/
inductive CoordEffect
  | cmd2D (c : SurfaceCmd)
  | cmd3D (c : SurfaceCmd)
  | toast (title : String)
deriving DecidableEq

/-- Coordinator state of Index.tsx: which view is selected, and whether each
surface ref is non-null (a ref is null while that surface is unmounted). -/
structure CoordState where
  is3DView : Bool
  mapMounted : Bool
  globeMounted : Bool
deriving DecidableEq

/-- handleLocationClick of Index.tsx: delegate to the globe in 3D view, else
to the map, else toast Map Not Ready. -/
def handleLocationClick (st : CoordState) : List CoordEffect :=
  if st.is3DView && st.globeMounted then [CoordEffect.cmd3D SurfaceCmd.locate]
  else if st.mapMounted then [CoordEffect.cmd2D SurfaceCmd.locate]
  else [CoordEffect.toast "Map Not Ready"]

/-- handleMeasureClick of Index.tsx: delegate to the map if mounted, else
toast Map Not Ready. -/
def handleMeasureClick (st : CoordState) : List CoordEffect :=
  if st.mapMounted then [CoordEffect.cmd2D SurfaceCmd.measure]
  else [CoordEffect.toast "Map Not Ready"]

/-- handleZoomIn of Index.tsx: delegate to the mounted surface; silently do
nothing when neither surface is available. -/
def handleZoomIn (st : CoordState) : List CoordEffect :=
  if st.is3DView && st.globeMounted then [CoordEffect.cmd3D SurfaceCmd.zoomInCmd]
  else if st.mapMounted then [CoordEffect.cmd2D SurfaceCmd.zoomInCmd]
  else []

/-- handleZoomOut of Index.tsx: same dispatch shape as handleZoomIn. -/
def handleZoomOut (st : CoordState) : List CoordEffect :=
  if st.is3DView && st.globeMounted then [CoordEffect.cmd3D SurfaceCmd.zoomOutCmd]
  else if st.mapMounted then [CoordEffect.cmd2D SurfaceCmd.zoomOutCmd]
  else []

/-- The onWorldViewClick handler of Index.tsx: fly-to with no fallback
branch. -/
def handleWorldViewClick (st : CoordState) : List CoordEffect :=
  if st.is3DView && st.globeMounted then [CoordEffect.cmd3D SurfaceCmd.flyToCmd]
  else if st.mapMounted then [CoordEffect.cmd2D SurfaceCmd.flyToCmd]
  else []

/-- handleResultSelect of Index.tsx: searchAndShowWeather dispatch with no
fallback branch. -/
def handleResultSelect (st : CoordState) : List CoordEffect :=
  if st.is3DView && st.globeMounted then [CoordEffect.cmd3D SurfaceCmd.search]
  else if st.mapMounted then [CoordEffect.cmd2D SurfaceCmd.search]
  else []

/-- C9 counterexample: with no surface mounted, zoomIn is a silent no-op —
it emits no effect at all, in particular no explicit not-ready signal —
while locateUser in the same state does surface a Map Not Ready toast, so
not every command surfaces such a signal. -/
theorem zoom_not_ready_silent :
    handleZoomIn ⟨false, false, false⟩ = [] ∧
    handleLocationClick ⟨false, false, false⟩ =
      [CoordEffect.toast "Map Not Ready"] := by
  constructor <;> decide

/-- C9 amended: while no rendering surface is mounted, every coordinator
command is a no-op that never raises (all handlers are total functions);
locateUser and startMeasurement surface an explicit Map Not Ready toast,
while zoomIn, zoomOut, flyTo and searchAndShowWeather produce no effect and
no signal. -/
theorem commands_not_ready (v3 : Bool) :
    handleLocationClick ⟨v3, false, false⟩ = [CoordEffect.toast "Map Not Ready"] ∧
    handleMeasureClick ⟨v3, false, false⟩ = [CoordEffect.toast "Map Not Ready"] ∧
    handleZoomIn ⟨v3, false, false⟩ = [] ∧
    handleZoomOut ⟨v3, false, false⟩ = [] ∧
    handleWorldViewClick ⟨v3, false, false⟩ = [] ∧
    handleResultSelect ⟨v3, false, false⟩ = [] := by
  cases v3 <;> exact ⟨rfl, rfl, rfl, rfl, rfl, rfl⟩

/-- C5 counterexample to the unrestricted claim: reconciling the empty
registry with the desired set [bogus] leaves the attached set empty — the
unknown id is skipped, so the attached set is not set-equal to the desired
set. -/
theorem reconcile_unknown_id_not_attached :
    "bogus" ∉ (reconcileOverlays ⟨[], [], []⟩ ["bogus"] "2024-01-01").1.activeIds ∧
    "bogus" ∈ ["bogus"] := by
  constructor <;> decide

/-- Concrete instance of commands_not_ready in the 2D view with nothing
mounted. -/
theorem commands_not_ready_witness :
    handleMeasureClick ⟨false, false, false⟩ = [CoordEffect.toast "Map Not Ready"] ∧
    handleZoomOut ⟨false, false, false⟩ = [] :=
  ⟨(commands_not_ready false).2.1, (commands_not_ready false).2.2.2.1⟩

/-- Concrete instance of terminal_summary_unreachable: with both network
providers raising, the provider walk still returns on a provider. -/
theorem terminal_summary_unreachable_witness :
    (providerLoop ⟨⟨18, "clear", 5, 50, 1010, "London"⟩, none, none⟩ 0
      (serviceProviders (fun _ => Except.error "a") (fun _ => Except.error "b"))
      []).isSome = true :=
  (terminal_summary_unreachable (fun _ => Except.error "a")
    (fun _ => Except.error "b") ⟨⟨18, "clear", 5, 50, 1010, "London"⟩, none, none⟩
    0 []).2.2
